import Mathlib

/-!
Shallow embedding of the admission-control core of `src/app.py`:
token-quota storage helpers (`get_token_quota`, `decrement_token_quota`),
the rate-limit key function (`get_rate_limit_key`), the request handler
(`generate_exam`), the 429 handler (`ratelimit_handler`), and a model of
the flask_limiter window enforcement (the limiter internals live in the
flask_limiter dependency, not in this repository, so they are modelled
from the spec where noted).
-/

namespace App

/-- One document of the `tokens` MongoDB collection: the persisted shape
`{ token: string, quota: integer }`. -/
structure TokenRecord where
  token : String
  quota : Int
deriving Repr, DecidableEq

/-- `tokens_collection.find_one({"token": token})`: the first record whose
`token` field equals the given string, if any. -/
def find_one (coll : List TokenRecord) (token : String) : Option TokenRecord :=
  coll.find? (fun r => r.token == token)

/-- `tokens_collection.update_one({"token": token}, {"$inc": {"quota": delta}})`:
adds `delta` to the `quota` of the first matching record; matching no record
is a no-op (no upsert is requested in `decrement_token_quota`). -/
def update_one_inc (coll : List TokenRecord) (token : String) (delta : Int) :
    List TokenRecord :=
  match coll with
  | [] => []
  | r :: rest =>
    if r.token == token then { r with quota := r.quota + delta } :: rest
    else r :: update_one_inc rest token delta

/-- `get_token_quota` (src/app.py lines 35-45): returns 0 when no store is
configured (`tokens_collection is None`), the stored `quota` when a record
exists, and 0 for an unknown token. -/
def get_token_quota (tokens_collection : Option (List TokenRecord))
    (token : String) : Int :=
  match tokens_collection with
  | none => 0
  | some coll =>
    match find_one coll token with
    | some record => record.quota
    | none => 0

/-- `decrement_token_quota` (src/app.py lines 47-53): `$inc` the quota by -1
when a store is configured; a silent no-op otherwise. -/
def decrement_token_quota (tokens_collection : Option (List TokenRecord))
    (token : String) : Option (List TokenRecord) :=
  match tokens_collection with
  | none => none
  | some coll => some (update_one_inc coll token (-1))

/-- Python's `str.strip()`: the string with surrounding whitespace removed,
as called on the token in `get_rate_limit_key` and `generate_exam`. -/
def strip (s : String) : String :=
  ⟨((s.data.dropWhile Char.isWhitespace).reverse.dropWhile Char.isWhitespace).reverse⟩

/-- The limiting key computed by `get_rate_limit_key`: `unmetered` stands for
the Python `return None` (flask_limiter then neither checks nor counts the
request), `byAddress` for `get_remote_address()`. -/
inductive RateLimitKey where
  | unmetered
  | byAddress (addr : String)
deriving Repr, DecidableEq

/-- The parsed JSON request body, restricted to the two fields the handler
reads.  `Option RequestBody` models `request.get_json(silent=True)` where
`none` stands for any falsy result (absent/invalid JSON or an empty object),
matching the `if not data` guard. -/
structure RequestBody where
  stage : Option String
  token : Option String
deriving Repr, DecidableEq

/-- `get_rate_limit_key` (src/app.py lines 56-66): a request carrying a token
whose trimmed value currently reads a strictly positive quota gets the
unmetered key (`return None`); every other request is keyed by its source
address. -/
def get_rate_limit_key (tokens_collection : Option (List TokenRecord))
    (data : Option RequestBody) (remoteAddress : String) : RateLimitKey :=
  match data with
  | some body =>
    match body.token with
    | some t =>
      if get_token_quota tokens_collection (strip t) > 0 then RateLimitKey.unmetered
      else RateLimitKey.byAddress remoteAddress
    | none => RateLimitKey.byAddress remoteAddress
  | none => RateLimitKey.byAddress remoteAddress

/-- Modelled from the spec: membership of a recorded admission `p` (key and
time) in the rolling window of width `w` seconds ending at time `T`, for
key `k`. -/
def in_window (k : String) (T w : Nat) (p : String × Nat) : Bool :=
  p.1 == k && p.2 ≤ T && T < p.2 + w

/-- Modelled from the spec: flask_limiter's window bookkeeping is not part of
this repository, so admissions are recorded as (key, admission time in
seconds) pairs and each window is evaluated as a rolling window over them,
per §4.1 step 3 of the spec. -/
def window_count (st : List (String × Nat)) (k : String) (T w : Nat) : Nat :=
  st.countP (in_window k T w)

/-- Modelled from the spec: enforcement of `@limiter.limit("2 per minute")`
and `@limiter.limit("50 per day")` (src/app.py lines 243-244) under the
key function above.  A `none` key (unmetered) is neither checked against
either window nor counted; a `byAddress` key is admitted and recorded only
while both rolling windows have room, otherwise rejected with the exceeded
limit's description (`e.description`). -/
def limiter_check (st : List (String × Nat)) (key : RateLimitKey) (now : Nat) :
    Option String × List (String × Nat) :=
  match key with
  | RateLimitKey.unmetered => (none, st)
  | RateLimitKey.byAddress k =>
    if ¬ window_count st k now 60 < 2 then (some "2 per 1 minute", st)
    else if ¬ window_count st k now 86400 < 50 then (some "50 per 1 day", st)
    else (none, (k, now) :: st)

/-- Modelled from the spec: a sequence of admission attempts for one fixed
source-address key, at the given times, threaded through the limiter state;
returns the admission outcomes (`true` = admitted) and the final state. -/
def limiter_trace (k : String) : List Nat → List (String × Nat) →
    List Bool × List (String × Nat)
  | [], st => ([], st)
  | t :: ts, st =>
    match limiter_check st (RateLimitKey.byAddress k) t with
    | (none, st') =>
      let r := limiter_trace k ts st'
      (true :: r.1, r.2)
    | (some _, st') =>
      let r := limiter_trace k ts st'
      (false :: r.1, r.2)

/-- Both spec windows hold of a record of admissions: every key has at most 2
admissions in any rolling 60-second window and at most 50 in any rolling
24-hour window. -/
def windows_ok (st : List (String × Nat)) : Prop :=
  ∀ k T, window_count st k T 60 ≤ 2 ∧ window_count st k T 86400 ≤ 50

/-- Response bodies produced by the handler and error handlers. -/
inductive HttpBody where
  | jsonError (error : String)
  | jsonErrorDetail (error detail : String)
  | raw (content : String)
deriving Repr, DecidableEq

/-- An HTTP response: status, body, and the `X-Remaining-Quota` header
(set only on the 200 path, src/app.py line 290). -/
structure HttpResponse where
  status : Nat
  body : HttpBody
  xRemainingQuota : Option String
deriving Repr, DecidableEq

/-- The 429 error handler `ratelimit_handler` (src/app.py lines 297-302):
a JSON body with a fixed error message and `str(e.description)`. -/
def ratelimit_handler (detail : String) : HttpResponse :=
  { status := 429
    body := HttpBody.jsonErrorDetail
      "免费额度请求过于频繁，请稍后再试，或输入卡密使用。" detail
    xRemainingQuota := none }

/-- The generation tail of `generate_exam` (src/app.py lines 282-294): the
provider call `client.chat.completions.create` is abstracted by its outcome
`gen` (`Except.ok content`, or `Except.error msg` for any raised exception,
whose message the outer `except` renders as a 500).  Returns the response,
the store after the request, and whether the provider was invoked. -/
def run_generation (coll : Option (List TokenRecord)) (gen : Except String String)
    (quota_remaining : String) :
    HttpResponse × Option (List TokenRecord) × Bool :=
  match gen with
  | Except.ok content =>
    ({ status := 200, body := HttpBody.raw content,
       xRemainingQuota := some quota_remaining }, coll, true)
  | Except.error e =>
    ({ status := 500, body := HttpBody.jsonError e,
       xRemainingQuota := none }, coll, true)

/-- The body of `generate_exam` (src/app.py lines 245-294), after the limiter
decorators have admitted the request.  Mirrors the source order: 400 on a
falsy body; strip the token; a non-empty token with no configured store is a
500; a non-positive quota is a 403; otherwise decrement first, then call the
provider with `quota_remaining = current_quota - 1`.  The third component
records whether the provider was called. -/
def generate_exam (tokens_collection : Option (List TokenRecord))
    (data : Option RequestBody) (gen : Except String String) :
    HttpResponse × Option (List TokenRecord) × Bool :=
  match data with
  | none =>
    ({ status := 400, body := HttpBody.jsonError "Invalid JSON",
       xRemainingQuota := none }, tokens_collection, false)
  | some body =>
    let token := strip (body.token.getD "")
    if token = "" then
      run_generation tokens_collection gen "IP Limit"
    else
      match tokens_collection with
      | none =>
        ({ status := 500,
           body := HttpBody.jsonError "Server Database Error (Contact Admin)",
           xRemainingQuota := none }, none, false)
      | some coll =>
        let current_quota := get_token_quota (some coll) token
        if current_quota ≤ 0 then
          ({ status := 403,
             body := HttpBody.jsonError "无效卡密或次数已用完 (Invalid or Exhausted Token)",
             xRemainingQuota := none }, some coll, false)
        else
          run_generation (decrement_token_quota (some coll) token) gen
            (toString (current_quota - 1))

/-- The full request pipeline: the limiter decorators (src/app.py lines
242-244) run before the handler body, and a limiter rejection is rendered by
`ratelimit_handler` without entering `generate_exam`.  Returns the response,
the store after the request, the limiter state after the request, and
whether the provider was called. -/
def handle_request (tokens_collection : Option (List TokenRecord))
    (st : List (String × Nat)) (data : Option RequestBody)
    (remoteAddress : String) (now : Nat) (gen : Except String String) :
    HttpResponse × Option (List TokenRecord) × List (String × Nat) × Bool :=
  let key := get_rate_limit_key tokens_collection data remoteAddress
  match limiter_check st key now with
  | (some detail, st') => (ratelimit_handler detail, tokens_collection, st', false)
  | (none, st') =>
    let (resp, coll', called) := generate_exam tokens_collection data gen
    (resp, coll', st', called)

/-- Progress of one in-flight credentialed request through the quota section
of `generate_exam` (src/app.py lines 262-270), at the granularity of the
store operations, each of which MongoDB performs atomically: first the
`find_one` read inside `get_token_quota`, then — only if the read was
positive — the separate `$inc` update inside `decrement_token_quota`.
`finished s r` records the admission outcome: `s = 200` with
`r = some (current_quota - 1)` when admitted (generation assumed to
succeed), `s = 403` with `r = none` when rejected for exhausted quota. -/
inductive ThreadState where
  | start
  | readDone (current_quota : Int)
  | finished (status : Nat) (remaining : Option Int)
deriving Repr, DecidableEq

/-- One atomic step of a request thread against the shared configured store:
the read step, or the check-then-act step the source performs after it. -/
def thread_step (coll : List TokenRecord) (token : String) :
    ThreadState → ThreadState × List TokenRecord
  | ThreadState.start =>
    (ThreadState.readDone (get_token_quota (some coll) token), coll)
  | ThreadState.readDone q =>
    if q ≤ 0 then (ThreadState.finished 403 none, coll)
    else (ThreadState.finished 200 (some (q - 1)), update_one_inc coll token (-1))
  | ThreadState.finished s r => (ThreadState.finished s r, coll)

/-- Run a list of concurrent request threads under an explicit interleaving:
each schedule entry names the thread that performs its next atomic store
operation. -/
def run_schedule (token : String) : List Nat →
    List TokenRecord × List ThreadState → List TokenRecord × List ThreadState
  | [], s => s
  | i :: rest, (coll, threads) =>
    match threads.get? i with
    | none => run_schedule token rest (coll, threads)
    | some t =>
      let (t', coll') := thread_step coll token t
      run_schedule token rest (coll', threads.set i t')

end App

open App

theorem find_one_isSome_of_quota_pos (coll : List TokenRecord) (token : String)
    (h : 0 < get_token_quota (some coll) token) :
    (find_one coll token).isSome = true := by
  cases hf : find_one coll token with
  | none => simp [get_token_quota, hf] at h
  | some r => simp

theorem get_token_quota_update_one_inc (coll : List TokenRecord) (token : String)
    (delta : Int) (h : (find_one coll token).isSome = true) :
    get_token_quota (some (update_one_inc coll token delta)) token =
      get_token_quota (some coll) token + delta := by
  induction coll with
  | nil => simp [find_one] at h
  | cons r rest ih =>
    by_cases hr : (r.token == token) = true
    · simp [get_token_quota, find_one, update_one_inc, List.find?_cons, hr]
    · have h' : (find_one rest token).isSome = true := by
        simpa [find_one, List.find?_cons, hr] using h
      have hrec := ih h'
      simpa [get_token_quota, find_one, update_one_inc, List.find?_cons, hr]
        using hrec

/-- C1: the quota check and the decrement are a separate read-then-write pair,
not an atomic compare-and-decrement, so with stored quota 1 two concurrent
requests interleaved read-read-decrement-decrement are BOTH admitted with
status 200 and `X-Remaining-Quota` reading 0, and the stored quota ends at
-1 — the claim requires exactly `min(2, 1) = 1` admission. -/
theorem c1_race_both_admitted :
    run_schedule "ABC" [0, 1, 0, 1]
      ([⟨"ABC", 1⟩], [ThreadState.start, ThreadState.start]) =
    ([⟨"ABC", -1⟩],
     [ThreadState.finished 200 (some 0), ThreadState.finished 200 (some 0)]) := by
  decide

/-- C2: for every request supplying a token whose stored quota is strictly
positive, with the store configured and the generation succeeding, the
handler returns HTTP 200 whose `X-Remaining-Quota` header is the prior
quota minus one, the store is updated by the `$inc -1` of that token, and
reading the token's quota afterwards gives exactly one less than before. -/
theorem c2_valid_token_decrements_and_reports (coll : List TokenRecord)
    (body : RequestBody) (content t : String)
    (htok : body.token = some t) (hne : strip t ≠ "")
    (hq : 0 < get_token_quota (some coll) (strip t)) :
    generate_exam (some coll) (some body) (Except.ok content) =
      ({ status := 200, body := HttpBody.raw content,
         xRemainingQuota :=
           some (toString (get_token_quota (some coll) (strip t) - 1)) },
       some (update_one_inc coll (strip t) (-1)), true)
    ∧ get_token_quota (some (update_one_inc coll (strip t) (-1))) (strip t) =
        get_token_quota (some coll) (strip t) - 1 := by
  constructor
  · simp [generate_exam, htok, hne, run_generation, decrement_token_quota,
      not_le.mpr hq]
  · have h := get_token_quota_update_one_inc coll (strip t) (-1)
      (find_one_isSome_of_quota_pos coll (strip t) hq)
    omega

theorem c2_witness :
    strip "ABC" ≠ "" ∧ 0 < get_token_quota (some [⟨"ABC", 2⟩]) (strip "ABC") ∧
    (generate_exam (some [⟨"ABC", 2⟩]) (some ⟨none, some "ABC"⟩) (Except.ok "X") =
      ({ status := 200, body := HttpBody.raw "X",
         xRemainingQuota :=
           some (toString (get_token_quota (some [⟨"ABC", 2⟩]) (strip "ABC") - 1)) },
       some (update_one_inc [⟨"ABC", 2⟩] (strip "ABC") (-1)), true)
    ∧ get_token_quota
        (some (update_one_inc [⟨"ABC", 2⟩] (strip "ABC") (-1))) (strip "ABC") =
        get_token_quota (some [⟨"ABC", 2⟩]) (strip "ABC") - 1) :=
  ⟨by decide, by decide,
    c2_valid_token_decrements_and_reports [⟨"ABC", 2⟩] ⟨none, some "ABC"⟩ "X" "ABC"
      rfl (by decide) (by decide)⟩

/-- C3: for every token with no record in the configured store,
`get_token_quota` returns 0 without error, and `get_rate_limit_key` buckets
a request bearing that token under the caller's source address
(`byAddress`), not `unmetered`. -/
theorem c3_unknown_token_zero_and_ip_keyed (coll : List TokenRecord)
    (body : RequestBody) (t addr : String) (htok : body.token = some t)
    (hun : find_one coll (strip t) = none) :
    get_token_quota (some coll) (strip t) = 0 ∧
    get_rate_limit_key (some coll) (some body) addr =
      RateLimitKey.byAddress addr := by
  have hz : get_token_quota (some coll) (strip t) = 0 := by
    simp [get_token_quota, hun]
  exact ⟨hz, by simp [get_rate_limit_key, htok, hz]⟩

theorem c3_witness :
    find_one [] (strip "XYZ") = none ∧
    (get_token_quota (some []) (strip "XYZ") = 0 ∧
     get_rate_limit_key (some []) (some ⟨none, some "XYZ"⟩) "1.2.3.4" =
       RateLimitKey.byAddress "1.2.3.4") :=
  ⟨by decide,
    c3_unknown_token_zero_and_ip_keyed [] ⟨none, some "XYZ"⟩ "XYZ" "1.2.3.4"
      rfl (by decide)⟩

/-- C8 counterexample: for a token with no record (here the empty store and
token "X"), `decrement_token_quota` is a no-op — `update_one` matches no
document — so the quota read immediately afterwards is still 0, not one
less than before; the claim's universal statement over every token fails. -/
theorem c8_counterexample :
    ¬ (get_token_quota (decrement_token_quota (some []) "X") "X" =
        get_token_quota (some []) "X" - 1) := by decide

/-- C8 amended: for every token that has a record in the configured store,
`get_token_quota` immediately after `decrement_token_quota`, with no other
mutation in between, returns exactly one less than before. -/
theorem c8_roundtrip_existing_record (coll : List TokenRecord) (token : String)
    (h : (find_one coll token).isSome = true) :
    get_token_quota (decrement_token_quota (some coll) token) token =
      get_token_quota (some coll) token - 1 := by
  have hrec := get_token_quota_update_one_inc coll token (-1) h
  simp [decrement_token_quota]
  omega

theorem c8_witness :
    (find_one [⟨"ABC", 5⟩] "ABC").isSome = true ∧
    get_token_quota (decrement_token_quota (some [⟨"ABC", 5⟩]) "ABC") "ABC" =
      get_token_quota (some [⟨"ABC", 5⟩]) "ABC" - 1 :=
  ⟨by decide, c8_roundtrip_existing_record [⟨"ABC", 5⟩] "ABC" (by decide)⟩

/-- C9: for every admitted request whose supplied token strips to the empty
string (no credential), with the generation succeeding, the handler returns
HTTP 200 with the literal header value "IP Limit" and the stored quota
state is returned unchanged. -/
theorem c9_anonymous_no_store_change (tc : Option (List TokenRecord))
    (body : RequestBody) (content : String)
    (hno : strip (body.token.getD "") = "") :
    generate_exam tc (some body) (Except.ok content) =
      ({ status := 200, body := HttpBody.raw content,
         xRemainingQuota := some "IP Limit" }, tc, true) := by
  simp [generate_exam, hno, run_generation]

theorem c9_witness :
    strip ((none : Option String).getD "") = "" ∧
    generate_exam (some [⟨"ABC", 2⟩]) (some ⟨some "stage1", none⟩)
        (Except.ok "X") =
      ({ status := 200, body := HttpBody.raw "X",
         xRemainingQuota := some "IP Limit" }, some [⟨"ABC", 2⟩], true) :=
  ⟨by decide,
    c9_anonymous_no_store_change (some [⟨"ABC", 2⟩]) ⟨some "stage1", none⟩ "X"
      (by decide)⟩

/-- C10: for every admitted request with a valid token (store configured,
quota strictly positive), the decrement is performed before the provider is
invoked: when the provider call fails, the handler returns HTTP 500 whose
body carries the exception message, yet the store already holds the
decremented balance — the consumed unit is not restored. -/
theorem c10_failed_generation_keeps_decrement (coll : List TokenRecord)
    (body : RequestBody) (t msg : String)
    (htok : body.token = some t) (hne : strip t ≠ "")
    (hq : 0 < get_token_quota (some coll) (strip t)) :
    generate_exam (some coll) (some body) (Except.error msg) =
      ({ status := 500, body := HttpBody.jsonError msg,
         xRemainingQuota := none },
       some (update_one_inc coll (strip t) (-1)), true)
    ∧ get_token_quota (some (update_one_inc coll (strip t) (-1))) (strip t) =
        get_token_quota (some coll) (strip t) - 1 := by
  constructor
  · simp [generate_exam, htok, hne, run_generation, decrement_token_quota,
      not_le.mpr hq]
  · have h := get_token_quota_update_one_inc coll (strip t) (-1)
      (find_one_isSome_of_quota_pos coll (strip t) hq)
    omega

theorem c10_witness :
    strip "ABC" ≠ "" ∧ 0 < get_token_quota (some [⟨"ABC", 1⟩]) (strip "ABC") ∧
    (generate_exam (some [⟨"ABC", 1⟩]) (some ⟨none, some "ABC"⟩)
        (Except.error "boom") =
      ({ status := 500, body := HttpBody.jsonError "boom",
         xRemainingQuota := none },
       some (update_one_inc [⟨"ABC", 1⟩] (strip "ABC") (-1)), true)
    ∧ get_token_quota
        (some (update_one_inc [⟨"ABC", 1⟩] (strip "ABC") (-1))) (strip "ABC") =
        get_token_quota (some [⟨"ABC", 1⟩]) (strip "ABC") - 1) :=
  ⟨by decide, by decide,
    c10_failed_generation_keeps_decrement [⟨"ABC", 1⟩] ⟨none, some "ABC"⟩ "ABC"
      "boom" rfl (by decide) (by decide)⟩

/-- C6: for every request supplying a non-empty token when no backing store
is configured, the handler returns HTTP 500 with body
`{"error": "Server Database Error (Contact Admin)"}` before any quota read
or write and without calling the provider, and in this degraded mode every
token lookup returns 0. -/
theorem c6_no_store_with_token_500 (body : RequestBody) (t : String)
    (gen : Except String String)
    (htok : body.token = some t) (hne : strip t ≠ "") :
    generate_exam none (some body) gen =
      ({ status := 500,
         body := HttpBody.jsonError "Server Database Error (Contact Admin)",
         xRemainingQuota := none }, none, false)
    ∧ ∀ s : String, get_token_quota none s = 0 := by
  exact ⟨by simp [generate_exam, htok, hne], fun s => rfl⟩

theorem c6_witness :
    strip "X" ≠ "" ∧
    (generate_exam none (some ⟨none, some "X"⟩) (Except.ok "Y") =
      ({ status := 500,
         body := HttpBody.jsonError "Server Database Error (Contact Admin)",
         xRemainingQuota := none }, none, false)
    ∧ ∀ s : String, get_token_quota none s = 0) :=
  ⟨by decide,
    c6_no_store_with_token_500 ⟨none, some "X"⟩ "X" (Except.ok "Y") rfl (by decide)⟩

theorem limiter_check_reject (st : List (String × Nat)) (key : RateLimitKey)
    (now : Nat) (detail : String)
    (h : (limiter_check st key now).1 = some detail) :
    limiter_check st key now = (some detail, st) := by
  cases key with
  | unmetered => simp [limiter_check] at h
  | byAddress k =>
    simp only [limiter_check] at h ⊢
    split_ifs at h ⊢ <;> simp_all

/-- C7: for every request the rate limiter rejects, the rejection happens
before the handler body runs: the response is the 429 rendered by
`ratelimit_handler`, the quota store is unchanged, the limiter state is
unchanged, and the provider is not called. -/
theorem c7_rate_limited_no_side_effects (tc : Option (List TokenRecord))
    (st : List (String × Nat)) (data : Option RequestBody) (addr : String)
    (now : Nat) (gen : Except String String) (detail : String)
    (hrej : (limiter_check st (get_rate_limit_key tc data addr) now).1 =
      some detail) :
    handle_request tc st data addr now gen =
      (ratelimit_handler detail, tc, st, false) := by
  have h2 := limiter_check_reject st (get_rate_limit_key tc data addr) now detail hrej
  simp [handle_request, h2]

theorem c7_witness :
    (limiter_check [("1.2.3.4", 0), ("1.2.3.4", 0)]
        (get_rate_limit_key none none "1.2.3.4") 0).1 = some "2 per 1 minute" ∧
    handle_request none [("1.2.3.4", 0), ("1.2.3.4", 0)] none "1.2.3.4" 0
        (Except.ok "X") =
      (ratelimit_handler "2 per 1 minute", none,
       [("1.2.3.4", 0), ("1.2.3.4", 0)], false) :=
  ⟨by decide,
    c7_rate_limited_no_side_effects none [("1.2.3.4", 0), ("1.2.3.4", 0)] none
      "1.2.3.4" 0 (Except.ok "X") "2 per 1 minute" (by decide)⟩

theorem generate_exam_status_ne_429 (tc : Option (List TokenRecord))
    (data : Option RequestBody) (gen : Except String String) :
    (generate_exam tc data gen).1.status ≠ 429 := by
  cases data with
  | none => simp [generate_exam]
  | some body =>
    cases tc with
    | none =>
      by_cases hne : strip (body.token.getD "") = "" <;>
        cases gen <;> simp [generate_exam, hne, run_generation]
    | some coll =>
      by_cases hne : strip (body.token.getD "") = ""
      · cases gen <;> simp [generate_exam, hne, run_generation]
      · by_cases hq : get_token_quota (some coll) (strip (body.token.getD "")) ≤ 0
        · simp [generate_exam, hne, hq]
        · cases gen <;> simp [generate_exam, hne, hq, run_generation]

/-- C4: for every request presenting a token whose quota reads strictly
positive at key-computation time, the limiting key is `unmetered`, neither
window is checked or counted (the limiter state passes through unchanged),
and the pipeline never returns HTTP 429, regardless of the limiter state
accumulated by the same source address. -/
theorem c4_positive_quota_never_rate_limited (tc : Option (List TokenRecord))
    (st : List (String × Nat)) (body : RequestBody) (t addr : String)
    (now : Nat) (gen : Except String String)
    (htok : body.token = some t)
    (hq : 0 < get_token_quota tc (strip t)) :
    get_rate_limit_key tc (some body) addr = RateLimitKey.unmetered ∧
    limiter_check st RateLimitKey.unmetered now = (none, st) ∧
    (handle_request tc st (some body) addr now gen).1.status ≠ 429 ∧
    (handle_request tc st (some body) addr now gen).2.2.1 = st := by
  have hkey : get_rate_limit_key tc (some body) addr = RateLimitKey.unmetered := by
    simp [get_rate_limit_key, htok, hq]
  refine ⟨hkey, rfl, ?_, ?_⟩
  · simpa [handle_request, hkey, limiter_check]
      using generate_exam_status_ne_429 tc (some body) gen
  · simp [handle_request, hkey, limiter_check]

theorem c4_witness :
    0 < get_token_quota (some [⟨"ABC", 1⟩]) (strip "ABC") ∧
    (get_rate_limit_key (some [⟨"ABC", 1⟩]) (some ⟨none, some "ABC"⟩) "1.2.3.4" =
       RateLimitKey.unmetered ∧
     limiter_check [("1.2.3.4", 0), ("1.2.3.4", 0)] RateLimitKey.unmetered 0 =
       (none, [("1.2.3.4", 0), ("1.2.3.4", 0)]) ∧
     (handle_request (some [⟨"ABC", 1⟩]) [("1.2.3.4", 0), ("1.2.3.4", 0)]
         (some ⟨none, some "ABC"⟩) "1.2.3.4" 0 (Except.ok "X")).1.status ≠ 429 ∧
     (handle_request (some [⟨"ABC", 1⟩]) [("1.2.3.4", 0), ("1.2.3.4", 0)]
         (some ⟨none, some "ABC"⟩) "1.2.3.4" 0 (Except.ok "X")).2.2.1 =
       [("1.2.3.4", 0), ("1.2.3.4", 0)]) :=
  ⟨by decide,
    c4_positive_quota_never_rate_limited (some [⟨"ABC", 1⟩])
      [("1.2.3.4", 0), ("1.2.3.4", 0)] ⟨none, some "ABC"⟩ "ABC" "1.2.3.4" 0
      (Except.ok "X") rfl (by decide)⟩

theorem window_count_le_at_now (st : List (String × Nat)) (k : String)
    (now T w : Nat) (hb : ∀ p ∈ st, p.2 ≤ now) (hT1 : now ≤ T) :
    window_count st k T w ≤ window_count st k now w := by
  apply List.countP_mono_left
  intro p hp hpT
  simp only [in_window, Bool.and_eq_true, beq_iff_eq, decide_eq_true_eq]
    at hpT ⊢
  obtain ⟨⟨hk, hpt⟩, hw⟩ := hpT
  exact ⟨⟨hk, hb p hp⟩, by omega⟩

theorem windows_ok_nil : windows_ok [] := by
  intro k T
  simp [windows_ok, window_count]

theorem windows_ok_insert (st : List (String × Nat)) (k : String) (now : Nat)
    (hb : ∀ p ∈ st, p.2 ≤ now) (hok : windows_ok st)
    (h60 : window_count st k now 60 < 2)
    (hday : window_count st k now 86400 < 50) :
    windows_ok ((k, now) :: st) := by
  intro k' T
  constructor
  · by_cases hc : in_window k' T 60 (k, now) = true
    · have hcount : window_count ((k, now) :: st) k' T 60 =
          window_count st k' T 60 + 1 := by
        simp [window_count, List.countP_cons_of_pos _ _ hc]
      simp only [in_window, Bool.and_eq_true, beq_iff_eq, decide_eq_true_eq]
        at hc
      obtain ⟨⟨hk, hT1⟩, hT2⟩ := hc
      subst hk
      have hle := window_count_le_at_now st k now T 60 hb hT1
      omega
    · have hcount : window_count ((k, now) :: st) k' T 60 =
          window_count st k' T 60 := by
        simp [window_count, List.countP_cons_of_neg _ _ hc]
      rw [hcount]
      exact (hok k' T).1
  · by_cases hc : in_window k' T 86400 (k, now) = true
    · have hcount : window_count ((k, now) :: st) k' T 86400 =
          window_count st k' T 86400 + 1 := by
        simp [window_count, List.countP_cons_of_pos _ _ hc]
      simp only [in_window, Bool.and_eq_true, beq_iff_eq, decide_eq_true_eq]
        at hc
      obtain ⟨⟨hk, hT1⟩, hT2⟩ := hc
      subst hk
      have hle := window_count_le_at_now st k now T 86400 hb hT1
      omega
    · have hcount : window_count ((k, now) :: st) k' T 86400 =
          window_count st k' T 86400 := by
        simp [window_count, List.countP_cons_of_neg _ _ hc]
      rw [hcount]
      exact (hok k' T).2

theorem limiter_trace_windows_ok (k : String) :
    ∀ (ts : List Nat) (st : List (String × Nat)),
      List.Pairwise (· ≤ ·) ts →
      (∀ p ∈ st, ∀ t ∈ ts, p.2 ≤ t) → windows_ok st →
      windows_ok (limiter_trace k ts st).2 := by
  intro ts
  induction ts with
  | nil => intro st _ _ hok; simpa [limiter_trace] using hok
  | cons t rest ih =>
    intro st hsorted hb hok
    rw [List.pairwise_cons] at hsorted
    obtain ⟨hle, hrest⟩ := hsorted
    have hbt : ∀ p ∈ st, p.2 ≤ t := fun p hp => hb p hp t (List.mem_cons_self t rest)
    by_cases h60 : window_count st k t 60 < 2
    · by_cases hday : window_count st k t 86400 < 50
      · have heq : (limiter_trace k (t :: rest) st).2 =
            (limiter_trace k rest ((k, t) :: st)).2 := by
          simp [limiter_trace, limiter_check, h60, hday]
        rw [heq]
        apply ih ((k, t) :: st) hrest
        · intro p hp t' ht'
          rcases List.mem_cons.mp hp with h | h
          · rw [h]; exact hle t' ht'
          · exact hb p h t' (List.mem_cons_of_mem t ht')
        · exact windows_ok_insert st k t hbt hok h60 hday
      · have heq : (limiter_trace k (t :: rest) st).2 =
            (limiter_trace k rest st).2 := by
          simp [limiter_trace, limiter_check, h60, hday]
        rw [heq]
        exact ih st hrest (fun p hp t' ht' => hb p hp t' (List.mem_cons_of_mem t ht')) hok
    · have heq : (limiter_trace k (t :: rest) st).2 =
          (limiter_trace k rest st).2 := by
        simp [limiter_trace, limiter_check, h60]
      rw [heq]
      exact ih st hrest (fun p hp t' ht' => hb p hp t' (List.mem_cons_of_mem t ht')) hok

/-- C5: for every source-address key, any sorted sequence of admission
attempts leaves at most 2 admissions in every rolling 60-second window and
at most 50 in every rolling 24-hour window; and a request arriving while
either window is exceeded returns HTTP 429 with a JSON body carrying an
error message and a limiter-provided detail. -/
theorem c5_windows_capped_and_429_body (k addr : String) (ts : List Nat)
    (tc : Option (List TokenRecord)) (st : List (String × Nat))
    (body : RequestBody) (now : Nat) (gen : Except String String)
    (hsorted : List.Pairwise (· ≤ ·) ts)
    (hkey : get_rate_limit_key tc (some body) addr = RateLimitKey.byAddress addr)
    (hex : ¬ (window_count st addr now 60 < 2 ∧
              window_count st addr now 86400 < 50)) :
    windows_ok (limiter_trace k ts []).2 ∧
    (handle_request tc st (some body) addr now gen).1.status = 429 ∧
    ∃ msg detail, (handle_request tc st (some body) addr now gen).1.body =
      HttpBody.jsonErrorDetail msg detail := by
  refine ⟨limiter_trace_windows_ok k ts [] hsorted (by simp) windows_ok_nil, ?_⟩
  by_cases h60 : window_count st addr now 60 < 2
  · have hday : ¬ window_count st addr now 86400 < 50 := fun hd => hex ⟨h60, hd⟩
    have heq : handle_request tc st (some body) addr now gen =
        (ratelimit_handler "50 per 1 day", tc, st, false) := by
      simp [handle_request, hkey, limiter_check, h60, hday]
    rw [heq]
    exact ⟨rfl, _, _, rfl⟩
  · have heq : handle_request tc st (some body) addr now gen =
        (ratelimit_handler "2 per 1 minute", tc, st, false) := by
      simp [handle_request, hkey, limiter_check, h60]
    rw [heq]
    exact ⟨rfl, _, _, rfl⟩

theorem c5_witness :
    List.Pairwise (· ≤ ·) [0, 30, 40, 70] ∧
    get_rate_limit_key none (some ⟨none, none⟩) "5.6.7.8" =
      RateLimitKey.byAddress "5.6.7.8" ∧
    ¬ (window_count [("5.6.7.8", 0), ("5.6.7.8", 0)] "5.6.7.8" 0 60 < 2 ∧
       window_count [("5.6.7.8", 0), ("5.6.7.8", 0)] "5.6.7.8" 0 86400 < 50) ∧
    (windows_ok (limiter_trace "5.6.7.8" [0, 30, 40, 70] []).2 ∧
     (handle_request none [("5.6.7.8", 0), ("5.6.7.8", 0)] (some ⟨none, none⟩)
         "5.6.7.8" 0 (Except.ok "X")).1.status = 429 ∧
     ∃ msg detail,
       (handle_request none [("5.6.7.8", 0), ("5.6.7.8", 0)] (some ⟨none, none⟩)
           "5.6.7.8" 0 (Except.ok "X")).1.body =
         HttpBody.jsonErrorDetail msg detail) :=
  ⟨by decide, by decide, by decide,
    c5_windows_capped_and_429_body "5.6.7.8" "5.6.7.8" [0, 30, 40, 70] none
      [("5.6.7.8", 0), ("5.6.7.8", 0)] ⟨none, none⟩ 0 (Except.ok "X")
      (by decide) (by decide) (by decide)⟩
